import Mathlib

/-!
Verification of the data pipeline of the aging dashboard (`main.py`).

The pipeline reads a spreadsheet grid, coerces the quantity column
(comma decimal separator) and the last-movement date column, drops rows
whose coercion failed, derives `Dias_Em_Estoque` (whole days between a
single reference date and the last movement) and an aging tier, and
aggregates tier counts and per-material rollups for display.

Python/pandas behaviours are embedded as executable Lean functions:
machine floats on the values in play are exact decimals, so quantities
are rationals; pandas timestamps are proleptic-Gregorian calendar dates,
embedded as a `Date` triple with a civil day-number function.
-/

namespace AgingPesagem

attribute [local semireducible] Rat.add Rat.mul Rat.inv Rat.sub Rat.ofScientific

/-! ### Calendar dates

`pd.to_datetime` values are midnight timestamps; subtracting two of them
and taking `.dt.days` gives the difference of their civil day numbers. -/

structure Date where
  year : Int
  month : Int
  day : Int
deriving DecidableEq, Repr

/-- Proleptic-Gregorian leap year, as in Python's `datetime`. -/
def isLeapYear (y : Int) : Bool :=
  y % 4 == 0 && (y % 100 != 0 || y % 400 == 0)

def daysInMonth (y m : Int) : Int :=
  if m = 1 ∨ m = 3 ∨ m = 5 ∨ m = 7 ∨ m = 8 ∨ m = 10 ∨ m = 12 then 31
  else if m = 4 ∨ m = 6 ∨ m = 9 ∨ m = 11 then 30
  else if m = 2 then (if isLeapYear y then 29 else 28)
  else 0

def validDate (y m d : Int) : Bool :=
  decide (1 ≤ m) && decide (m ≤ 12) && decide (1 ≤ d) && decide (d ≤ daysInMonth y m)

/-- Civil day number (days since 1970-01-01) of a calendar date; the
standard era/year-of-era computation over the Gregorian 400-year cycle. -/
def days_from_civil (dt : Date) : Int :=
  let y := if dt.month ≤ 2 then dt.year - 1 else dt.year
  let era := (if 0 ≤ y then y else y - 399) / 400
  let yoe := y - era * 400
  let mp := (dt.month + 9) % 12
  let doy := (153 * mp + 2) / 5 + dt.day - 1
  let doe := yoe * 365 + yoe / 4 - yoe / 100 + doy
  era * 146097 + doe - 719468

/-! ### Value coercers -/

/-- Value of a digit string (caller guarantees all characters are digits). -/
def digitsVal (cs : List Char) : Nat :=
  cs.foldl (fun a c => a * 10 + (c.toNat - 48)) 0

def allDigits (cs : List Char) : Bool := cs.all (·.isDigit)

/-- Plain decimal literal accepted by `float` / `pd.to_numeric`:
an optional sign, then digits with at most one dot and at least one digit.
(Exponents, underscores and the non-finite spellings are not modelled:
no cell in the modelled data uses them, and a non-finite value would be
dropped by the NaN filter just as a parse failure is.) -/
def parseFloat? (cs : List Char) : Option ℚ :=
  let sgn : ℚ := match cs with
    | '-' :: _ => -1
    | _ => 1
  let body := match cs with
    | '-' :: r => r
    | '+' :: r => r
    | r => r
  match body.splitOn '.' with
  | [intp] =>
      if intp ≠ [] && allDigits intp then some (sgn * digitsVal intp) else none
  | [intp, frac] =>
      if allDigits intp && allDigits frac && (intp ≠ [] || frac ≠ []) then
        some (sgn * ((digitsVal intp : ℚ) + (digitsVal frac : ℚ) / (10 : ℚ) ^ frac.length))
      else none
  | _ => none

/-- Quantity coercion (`main.py` lines 58–62): replace the decimal
separator `,` by `.` in the raw cell text, then coerce to a number;
`none` models `NaN` from `errors='coerce'` (the row is later dropped). -/
def parse_estoque (s : String) : Option ℚ :=
  parseFloat? (s.data.map (fun c => if c = ',' then '.' else c))

/-- Date coercion (`main.py` line 67): `pd.to_datetime(..., errors='coerce',
dayfirst=False)` restricted to the representations in play: ISO
`YYYY-MM-DD`, and `A/B/YYYY` read month-first with the parser's usual
day-first fallback when the month slot is out of range; invalid calendar
components yield `none` (`NaT`, the row is later dropped). -/
def digitsToNat? (cs : List Char) : Option Nat :=
  if cs ≠ [] && allDigits cs then some (digitsVal cs) else none

def parse_date (s : String) : Option Date :=
  match s.data.splitOn '-' with
  | [ys, ms, ds] =>
      match digitsToNat? ys, digitsToNat? ms, digitsToNat? ds with
      | some y, some m, some d =>
          if validDate y m d then some ⟨y, m, d⟩ else none
      | _, _, _ => none
  | _ =>
      match s.data.splitOn '/' with
      | [as, bs, ys] =>
          match digitsToNat? as, digitsToNat? bs, digitsToNat? ys with
          | some a, some b, some y =>
              if validDate y a b then some ⟨y, a, b⟩
              else if validDate y b a then some ⟨y, b, a⟩
              else none
          | _, _, _ => none
      | _ => none

/-! ### Display formatter -/

/-- Three-digit zero-padded fractional part. -/
def pad3 (n : Nat) : String :=
  if n < 10 then "00" ++ toString n
  else if n < 100 then "0" ++ toString n
  else toString n

/-- Insert a separator every three digits, working over the reversed
digit list. -/
def group3 : List Char → List Char
  | d1 :: d2 :: d3 :: d4 :: rest => d1 :: d2 :: d3 :: ',' :: group3 (d4 :: rest)
  | l => l

/-- Integer part with US thousands separators, as `f"{val:,.3f}"` writes it. -/
def commaGroupedNat (n : Nat) : String :=
  String.mk (group3 (toString n).toList.reverse).reverse

/-- The US-format step `f"{val:,.3f}"` of `format_br_estoque`: thousands
separator `,`, decimal point `.`, three decimals.  Every value formatted
by the dashboard is an exact multiple of 1/1000, so the float rounding
mode never comes into play; `round` stands in for it. -/
def format_us (val : ℚ) : String :=
  let n : Int := round (val * 1000)
  let sign := if n < 0 then "-" else ""
  let m := n.natAbs
  sign ++ commaGroupedNat (m / 1000) ++ "." ++ pad3 (m % 1000)

/-- Model of `format_br_estoque` (`main.py` lines 327–339): format in US style,
then swap the separators to Brazilian style through the temporary
character `X` exactly as the source does.  (The `pd.isna` branch returns
the empty string; `NaN` has no rational embedding and no formatted value
is ever `NaN` in the pipeline, so the branch is dropped.) -/
def format_br_estoque (val : ℚ) : String :=
  let us_format := format_us val
  let step1 := us_format.data.map (fun c => if c = ',' then 'X' else c)
  let step2 := step1.map (fun c => if c = '.' then ',' else c)
  String.mk (step2.map (fun c => if c = 'X' then '.' else c))

/-! ### Tier classification -/

inductive Categoria where
  | Normal
  | Alerta
  | Critico
deriving DecidableEq, Repr

/-- Tier classifier `categorizar_aging` (`main.py` lines 81–87). -/
def categorizar_aging (dias : Int) : Categoria :=
  if dias < 10 then .Normal
  else if 10 ≤ dias ∧ dias < 20 then .Alerta
  else .Critico

/-- The chart colour map (`main.py` line 92). -/
def color_map : Categoria → String
  | .Normal => "green"
  | .Alerta => "orange"
  | .Critico => "red"

/-- The Portuguese label each tier carries in the dataframe. -/
def catName : Categoria → String
  | .Normal => "Normal"
  | .Alerta => "Alerta"
  | .Critico => "Crítico"

/-- Lexicographic codepoint comparison of character lists — how Python
compares the strings that pandas sorts group keys by. -/
def charListLt : List Char → List Char → Bool
  | [], [] => false
  | [], _ :: _ => true
  | _ :: _, [] => false
  | a :: as, b :: bs =>
      if a < b then true else if b < a then false else charListLt as bs

def str_lt (a b : String) : Bool := charListLt a.data b.data

def str_le (a b : String) : Bool := !(str_lt b a)

/-! ### Rows and the ingestion pipeline -/

/-- A processed dataframe row, with the column names of `main.py`
(lines 51–54 and the derived columns of lines 75–93). -/
structure Row where
  Material : String
  Descricao_Material : String
  Lote : String
  Estoque_Disponivel : ℚ
  UMB : String
  Tipo_Estoque : String
  Data_Entrada : String
  Ultimo_Movimento : Date
  Dias_Em_Estoque : Int
  Categoria_Aging : Categoria
  Cor_Categoria : String
deriving DecidableEq, Repr

/-- Survives the quantity `dropna` (`main.py` line 62): the quantity cell
(position 3) coerced to a number rather than to `NaN`. -/
def estoque_ok (r : List String) : Bool :=
  (parse_estoque (r.getD 3 "")).isSome

/-- Survives the date `dropna` (`main.py` line 70): the last-movement cell
(position 7) coerced to a date rather than to `NaT`. -/
def movimento_ok (r : List String) : Bool :=
  (parse_date (r.getD 7 "")).isSome

/-- Build the processed row from the 8 positional cells (`main.py`
lines 51–93): both coercions are known to have succeeded when this runs. -/
def mk_row (hoje : Date) (r : List String) : Row :=
  let q := (parse_estoque (r.getD 3 "")).getD 0
  let mv := (parse_date (r.getD 7 "")).getD ⟨1970, 1, 1⟩
  let dias := days_from_civil hoje - days_from_civil mv
  { Material := r.getD 0 ""
    Descricao_Material := r.getD 1 ""
    Lote := r.getD 2 ""
    Estoque_Disponivel := q
    UMB := r.getD 4 ""
    Tipo_Estoque := r.getD 5 ""
    Data_Entrada := r.getD 6 ""
    Ultimo_Movimento := mv
    Dias_Em_Estoque := dias
    Categoria_Aging := categorizar_aging dias
    Cor_Categoria := color_map (categorizar_aging dias) }

/-- The row stages of `load_and_process_data` (`main.py` lines 56–93):
quantity coercion and `dropna`, then date coercion and `dropna`, then the
derived columns, all against the one reference date `hoje` of the run. -/
def process_rows (grid : List (List String)) (hoje : Date) : List Row :=
  ((grid.filter estoque_ok).filter movimento_ok).map (mk_row hoje)

/-- The exceptions the `try` body of `load_and_process_data` can raise:
undecodable bytes in the reader, and the length-mismatch `ValueError`
from assigning 8 names to a frame with a different column count. -/
inductive PyError where
  | unicodeDecodeError
  | columnsLengthMismatch
deriving DecidableEq, Repr

/-- What `str(e)` contributes to the second `st.error` message (the exact
interpolated text of the Python exception is abstracted to its kind). -/
def pyMessage : PyError → String
  | .unicodeDecodeError => "UnicodeDecodeError"
  | .columnsLengthMismatch => "Length mismatch"

/-- An input source as the reader sees it after reading: either bytes
that fail to decode, or a decoded grid whose header row presented
`ncols` columns. -/
inductive DataSource where
  | undecodable
  | table (ncols : Nat) (grid : List (List String))
deriving DecidableEq, Repr

/-- The `try` body of `load_and_process_data` (`main.py` lines 36–95):
raises on undecodable bytes or on a column count other than 8 (the
assignment `df.columns = [...]` of line 51 raises `ValueError` whenever
the counts differ), otherwise yields the processed rows. -/
def load_body (src : DataSource) (hoje : Date) : Except PyError (List Row) :=
  match src with
  | .undecodable => .error .unicodeDecodeError
  | .table ncols grid =>
      if ncols = 8 then .ok (process_rows grid hoje) else .error .columnsLengthMismatch

/-- The user-facing message of the first `st.error` (`main.py` line 98). -/
def error_msg_user : String :=
  "Ocorreu um erro no processamento dos dados. Verifique se o arquivo é um CSV ou Excel (.xlsx) e se o cabeçalho (4ª linha) está no formato esperado."

/-- The second `st.error` message (`main.py` line 99), carrying the cause. -/
def error_msg_details (e : PyError) : String :=
  "Detalhes do erro: " ++ pyMessage e

/-- What one call of `load_and_process_data` produces: the returned pair
`(df, hoje)` as the fields `df`/`hoje`, and the `st.error` messages it
displayed as the side channel `displayed`. -/
structure LoadResult where
  df : List Row
  hoje : Date
  displayed : List String
deriving DecidableEq, Repr

/-- Ingestion entry point `load_and_process_data` (`main.py` lines 26–100): the `except` arm
catches every exception of the body, displays the user-facing message and
the cause, and returns an empty frame with the current date; `hoje`
stands for `date.today()` at call time (taken once — lines 73 and 100
both run within the same call). -/
def load_and_process_data (src : DataSource) (hoje : Date) : LoadResult :=
  match load_body src hoje with
  | .ok rows => { df := rows, hoje := hoje, displayed := [] }
  | .error e => { df := [], hoje := hoje, displayed := [error_msg_user, error_msg_details e] }

/-! ### KPIs (`main.py` lines 177–200) -/

/-- Distinct-material count `df['Material'].nunique()` over a row list. -/
def nunique_Material (rows : List Row) : Nat :=
  ((rows.map (·.Material)).dedup).length

/-- KPI `total_materiais` (`main.py` line 177). -/
def total_materiais (rows : List Row) : Nat :=
  nunique_Material rows

/-- KPI `criticos_count` (`main.py` line 180): the number of critical rows
(lots), `df[df['Categoria_Aging'] == 'Crítico'].shape[0]`. -/
def criticos_count (rows : List Row) : Nat :=
  (rows.filter (fun r => decide (r.Categoria_Aging = .Critico))).length

/-- KPI `percentual_critico` (`main.py` line 196): the critical row count as
a percentage of the distinct material count, 0 when there are no
materials. -/
def percentual_critico (rows : List Row) : ℚ :=
  if 0 < total_materiais rows then
    (criticos_count rows : ℚ) / (total_materiais rows : ℚ) * 100
  else 0

/-- Distinct materials that own at least one critical row — what the
percentage would count if it counted materials rather than lots. -/
def materiais_criticos_nunique (rows : List Row) : Nat :=
  nunique_Material (rows.filter (fun r => decide (r.Categoria_Aging = .Critico)))

/-! ### Tier-count aggregation (`main.py` lines 232–248) -/

/-- The display order of the tiers, `category_order` (`main.py` line 237). -/
def category_order : List Categoria := [.Normal, .Alerta, .Critico]

/-- Key order for `groupby('Categoria_Aging')`, which sorts the group keys ascending by their
string label; pandas sorts with an insertion-sort-based kernel at these
sizes (at most 3 keys), which `List.insertionSort` models exactly. -/
def cat_label_le (a b : Categoria) : Prop :=
  str_le (catName a) (catName b) = true

instance : DecidableRel cat_label_le := fun a b =>
  inferInstanceAs (Decidable (str_le (catName a) (catName b) = true))

/-- The frame `df_filtered.groupby('Categoria_Aging').agg({'Material': 'nunique'})`
(`main.py` lines 232–234): one entry per tier present, keys sorted, value
the distinct material count of the tier's rows. -/
def groupby_Categoria (rows : List Row) : List (Categoria × Nat) :=
  let keys := ((rows.map (·.Categoria_Aging)).dedup).insertionSort cat_label_le
  keys.map (fun c => (c, nunique_Material (rows.filter (fun r => decide (r.Categoria_Aging = c)))))

/-- The fill loop of `main.py` lines 239–241: append each tier of
`category_order` that is missing, with count 0, in display order. -/
def fill_missing (l : List (Categoria × Nat)) : List (Categoria × Nat) :=
  category_order.foldl
    (fun acc c => if acc.any (fun p => decide (p.1 = c)) then acc else acc ++ [(c, 0)])
    l

/-- The ordered-categorical sort of `main.py` lines 243–248 on a list in
which each tier occurs exactly once: list the entries in display order. -/
def cat_sort (l : List (Categoria × Nat)) : List (Categoria × Nat) :=
  category_order.filterMap (fun c => l.find? (fun p => decide (p.1 = c)))

/-- Tier counts `aging_counts` as the pie chart receives them, before the zero-count
display suppression of line 253: groupby, zero-fill, categorical sort. -/
def aging_counts (rows : List Row) : List (Categoria × Nat) :=
  cat_sort (fill_missing (groupby_Categoria rows))

/-! ### Per-material rollup (`main.py` lines 272–276) -/

structure Rollup where
  Material : String
  Descricao_Material : String
  Aging_Medio : ℚ
  Total_Lotes : Nat
  Estoque_Total : ℚ
deriving DecidableEq, Repr

/-- The rows of one `(Material, Descricao_Material)` group. -/
def grupo (rows : List Row) (k : String × String) : List Row :=
  rows.filter (fun r => decide ((r.Material, r.Descricao_Material) = k))

/-- Arithmetic mean of `Dias_Em_Estoque` over a group. -/
def mean_dias (l : List Row) : ℚ :=
  ((l.map (fun r => (r.Dias_Em_Estoque : ℚ))).sum) / (l.length : ℚ)

/-- The aggregation row of one group: mean aging, distinct lot count,
summed quantity (`main.py` lines 272–276). -/
def rollup_of (rows : List Row) (k : String × String) : Rollup :=
  let g := grupo rows k
  { Material := k.1
    Descricao_Material := k.2
    Aging_Medio := mean_dias g
    Total_Lotes := ((g.map (·.Lote)).dedup).length
    Estoque_Total := (g.map (·.Estoque_Disponivel)).sum }

/-- The distinct `(Material, Descricao_Material)` pairs of the row set. -/
def material_keys (rows : List Row) : List (String × String) :=
  (rows.map (fun r => (r.Material, r.Descricao_Material))).dedup

/-- Ascending order on group keys, as `groupby([...], sort=True)` sorts
its key tuples. -/
def key_le (a b : String × String) : Prop :=
  (str_lt a.1 b.1 || (a.1 == b.1 && str_le a.2 b.2)) = true

instance : DecidableRel key_le := fun a b =>
  inferInstanceAs (Decidable ((str_lt a.1 b.1 || (a.1 == b.1 && str_le a.2 b.2)) = true))

/-- The `groupby(...).agg(...).reset_index()` frame: one rollup per
group, in ascending key order. -/
def rollup_table (rows : List Row) : List Rollup :=
  (((material_keys rows).insertionSort key_le).map (rollup_of rows))

/-- Ascending comparison on the sort column `Aging_Medio`. -/
def aging_le (a b : Rollup) : Prop := a.Aging_Medio ≤ b.Aging_Medio

instance : DecidableRel aging_le := fun a b =>
  inferInstanceAs (Decidable (a.Aging_Medio ≤ b.Aging_Medio))

instance : IsTotal Rollup aging_le :=
  ⟨fun a b => le_total a.Aging_Medio b.Aging_Medio⟩

instance : IsTrans Rollup aging_le :=
  ⟨fun _ _ _ hab hbc => le_trans hab hbc⟩

/-- Descending sort `sort_values('Aging_Medio', ascending=False)`: pandas argsorts
ascending and reverses the indexer, and its sorting kernel at the sizes
in play is the (stable) insertion sort that `List.insertionSort` models;
the reversal of that stable ascending sort is taken verbatim. -/
def sort_desc_aging (l : List Rollup) : List Rollup :=
  (l.insertionSort aging_le).reverse

/-- Rollup `aging_por_material` (`main.py` lines 272–276): group, aggregate,
sort descending by mean aging, truncate with `.head(top_n)`. -/
def aging_por_material (rows : List Row) (top_n : Nat) : List Rollup :=
  (sort_desc_aging (rollup_table rows)).take top_n

/-! ### Concrete fixtures used by closed theorems and witnesses -/

/-- A reference date used by the concrete runs below. -/
def hojeW : Date := ⟨2025, 1, 10⟩

/-- One data row whose last movement lies after the reference date. -/
def gridW : List (List String) :=
  [["M1", "D1", "L1", "5,000", "KG", "Q", "x", "2025-01-20"]]

/-- The processed form of the single row of `gridW` under `hojeW`. -/
def rowW : Row :=
  { Material := "M1", Descricao_Material := "D1", Lote := "L1",
    Estoque_Disponivel := 5, UMB := "KG", Tipo_Estoque := "Q", Data_Entrada := "x",
    Ultimo_Movimento := ⟨2025, 1, 20⟩, Dias_Em_Estoque := -10,
    Categoria_Aging := .Normal, Cor_Categoria := "green" }

/-- An 8-column grid whose only row fails quantity coercion, so that a
successful ingestion filters every row out. -/
def gridAllFiltered : List (List String) :=
  [["M1", "D1", "L1", "abc", "KG", "Q", "x", "2025-01-02"]]

/-- Reference date for the KPI fixture. -/
def hoje10 : Date := ⟨2025, 2, 11⟩

/-- One material, two lots, both far beyond the critical boundary. -/
def grid10 : List (List String) :=
  [["M1", "D1", "L1", "10,000", "KG", "Q", "x", "2025-01-02"],
   ["M1", "D1", "L2", "5,000", "KG", "Q", "x", "2025-01-05"]]

/-- First-seen group of the tie fixture: material `A`. -/
def cexRowA : Row :=
  { Material := "A", Descricao_Material := "DA", Lote := "L1",
    Estoque_Disponivel := 1, UMB := "KG", Tipo_Estoque := "Q", Data_Entrada := "x",
    Ultimo_Movimento := ⟨2024, 12, 11⟩, Dias_Em_Estoque := 30,
    Categoria_Aging := .Critico, Cor_Categoria := "red" }

/-- Second-seen group of the tie fixture: material `B`, same mean aging. -/
def cexRowB : Row :=
  { cexRowA with Material := "B", Descricao_Material := "DB" }

/-- Two single-lot materials with equal mean aging, `A` seen before `B`. -/
def cexRows : List Row := [cexRowA, cexRowB]

/-! ### Theorems -/

/-- C1: the tier classification is a total function of `days_in_stock`:
every integer below 10 is Normal, from 10 up to but excluding 20 is
Alert, and from 20 on is Critical. -/
theorem tier_classification_total (d : Int) :
    (d < 10 → categorizar_aging d = .Normal)
    ∧ (10 ≤ d → d < 20 → categorizar_aging d = .Alerta)
    ∧ (20 ≤ d → categorizar_aging d = .Critico) := by
  unfold categorizar_aging
  refine ⟨fun h => ?_, fun h1 h2 => ?_, fun h => ?_⟩ <;> split_ifs <;>
    first | rfl | omega

/-- C1 witness: the boundary inputs 9, 10, 19 and 20 land on Normal,
Alert, Alert and Critical respectively. -/
theorem tier_classification_total_witness :
    categorizar_aging 9 = .Normal ∧ categorizar_aging 10 = .Alerta
    ∧ categorizar_aging 19 = .Alerta ∧ categorizar_aging 20 = .Critico :=
  ⟨(tier_classification_total 9).1 (by decide),
   (tier_classification_total 10).2.1 (by decide) (by decide),
   (tier_classification_total 19).2.1 (by decide) (by decide),
   (tier_classification_total 20).2.2 (by decide)⟩

/-- C8: every negative `days_in_stock` (a movement date strictly after
the reference date) is classified Normal, the lowest risk tier. -/
theorem negative_days_tier_normal (d : Int) (h : d < 0) :
    categorizar_aging d = .Normal := by
  unfold categorizar_aging
  rw [if_pos (by omega)]

/-- C8 witness: the future-dated aging −7 is classified Normal. -/
theorem negative_days_tier_normal_witness : categorizar_aging (-7) = .Normal :=
  negative_days_tier_normal (-7) (by decide)

/-- C2 counterexample: coercing the raw cell `"1.234,500"` does not
yield 1234.5 — the comma-to-dot replacement leaves `"1.234.500"`, which
is not a number, so the coercion yields the undefined value. -/
theorem quantity_roundtrip_cex :
    parse_estoque "1.234,500" = none
    ∧ parse_estoque "1.234,500" ≠ some (1234.5 : ℚ) := by
  constructor
  · rfl
  · intro h
    rw [show parse_estoque "1.234,500" = none from rfl] at h
    exact Option.noConfusion h

/-- C2 amended: thousands-separated raw text does not round-trip — the
coercion of `"1.234,500"` fails (the row would be dropped) — while raw
text without a thousands separator does reach the displayed form:
`"1234,500"` coerces to 1234.5 and the display formatter renders 1234.5
back as `"1.234,500"`. -/
theorem quantity_roundtrip_amended :
    parse_estoque "1.234,500" = none
    ∧ parse_estoque "1234,500" = some (1234.5 : ℚ)
    ∧ format_br_estoque ((1234.5 : ℚ)) = "1.234,500"
    ∧ format_br_estoque ((parse_estoque "1234,500").getD 0) = "1.234,500" := by
  refine ⟨rfl, by decide, by decide, by decide⟩

/-- C5: the two `dropna` stages drop exactly the rows whose quantity or
date coercion failed, and the surviving row set is the same whichever
stage runs first. -/
theorem row_filter_stage_order (grid : List (List String)) :
    (grid.filter estoque_ok).filter movimento_ok
      = (grid.filter movimento_ok).filter estoque_ok
    ∧ (grid.filter estoque_ok).filter movimento_ok
      = grid.filter (fun r => estoque_ok r && movimento_ok r) := by
  have h2 : (grid.filter estoque_ok).filter movimento_ok
      = grid.filter (fun r => estoque_ok r && movimento_ok r) := by
    rw [List.filter_filter]
    exact List.filter_congr (fun a _ => Bool.and_comm _ _)
  refine ⟨?_, h2⟩
  rw [h2, List.filter_filter]

/-- C7: every surviving row's `days_in_stock` is exactly the whole-day
difference between the run's single reference date and that row's last
movement, with a future-dated movement passed through as a negative
value, never clamped to zero. -/
theorem days_in_stock_difference (hoje : Date) (grid : List (List String))
    (row : Row) (h : row ∈ process_rows grid hoje) :
    row.Dias_Em_Estoque
      = days_from_civil hoje - days_from_civil row.Ultimo_Movimento
    ∧ (days_from_civil hoje < days_from_civil row.Ultimo_Movimento →
        row.Dias_Em_Estoque < 0) := by
  unfold process_rows at h
  obtain ⟨r, _, rfl⟩ := List.mem_map.1 h
  have h1 : (mk_row hoje r).Dias_Em_Estoque
      = days_from_civil hoje - days_from_civil (mk_row hoje r).Ultimo_Movimento := rfl
  exact ⟨h1, fun hlt => by rw [h1]; omega⟩

/-- C7 witness: in the concrete run `gridW`/`hojeW` the surviving row's
movement date 2025-01-20 lies after the reference date 2025-01-10, and
its `days_in_stock` is the uncapped difference, a negative value. -/
theorem days_in_stock_difference_witness :
    rowW.Dias_Em_Estoque
      = days_from_civil hojeW - days_from_civil rowW.Ultimo_Movimento
    ∧ rowW.Dias_Em_Estoque < 0 :=
  ⟨(days_in_stock_difference hojeW gridW rowW (by decide)).1,
   (days_in_stock_difference hojeW gridW rowW (by decide)).2 (by decide)⟩

/-- C6: whenever the source decodes to fewer than 8 columns or cannot be
decoded at all, the ingestion body raises, the caller is shown both the
user-facing message and the underlying cause, and no partly processed
row set escapes — the returned frame is empty. -/
theorem ingestion_error_path (hoje : Date) (src : DataSource)
    (h : src = DataSource.undecodable
        ∨ ∃ n grid, src = DataSource.table n grid ∧ n < 8) :
    ∃ e : PyError, load_body src hoje = Except.error e
      ∧ load_and_process_data src hoje
          = { df := [], hoje := hoje,
              displayed := [error_msg_user, error_msg_details e] } := by
  rcases h with rfl | ⟨n, grid, rfl, hn⟩
  · exact ⟨.unicodeDecodeError, rfl, rfl⟩
  · have h8 : ¬ n = 8 := by omega
    exact ⟨.columnsLengthMismatch,
      by simp [load_body, h8],
      by simp [load_and_process_data, load_body, h8]⟩

/-- C6 witness: a decodable 7-column source errors with the
length-mismatch cause and both messages, returning an empty frame. -/
theorem ingestion_error_path_witness :
    ∃ e : PyError, load_body (DataSource.table 7 []) hojeW = Except.error e
      ∧ load_and_process_data (DataSource.table 7 []) hojeW
          = { df := [], hoje := hojeW,
              displayed := [error_msg_user, error_msg_details e] } :=
  ingestion_error_path hojeW (DataSource.table 7 [])
    (Or.inr ⟨7, [], rfl, by decide⟩)

/-- C9: on any processing failure the ingestion function still returns
normally — an empty row set paired with the current date — so its return
value `(df, hoje)` is identical to that of a successful ingestion whose
rows were all filtered out. -/
theorem ingestion_failure_indistinguishable (hoje : Date)
    (src good : DataSource)
    (hbad : src = DataSource.undecodable
        ∨ ∃ n grid, src = DataSource.table n grid ∧ n ≠ 8)
    (hgood : ∃ grid, good = DataSource.table 8 grid
        ∧ process_rows grid hoje = []) :
    (load_and_process_data src hoje).df = []
    ∧ (load_and_process_data src hoje).hoje = hoje
    ∧ (load_and_process_data src hoje).df
        = (load_and_process_data good hoje).df
    ∧ (load_and_process_data src hoje).hoje
        = (load_and_process_data good hoje).hoje := by
  obtain ⟨g, rfl, hempty⟩ := hgood
  rcases hbad with rfl | ⟨n, grid, rfl, hn⟩
  · refine ⟨rfl, rfl, ?_, ?_⟩ <;> simp [load_and_process_data, load_body, hempty]
  · have h8 : ¬ n = 8 := hn
    refine ⟨?_, ?_, ?_, ?_⟩ <;> simp [load_and_process_data, load_body, h8, hempty]

/-- C9 witness: the 7-column failure and the all-rows-filtered success
(`gridAllFiltered`, whose single quantity cell is `"abc"`) return the
same `(df, hoje)` pair, the empty frame with the run's date. -/
theorem ingestion_failure_indistinguishable_witness :
    (load_and_process_data (DataSource.table 7 []) hojeW).df = []
    ∧ (load_and_process_data (DataSource.table 7 []) hojeW).hoje = hojeW
    ∧ (load_and_process_data (DataSource.table 7 []) hojeW).df
        = (load_and_process_data (DataSource.table 8 gridAllFiltered) hojeW).df
    ∧ (load_and_process_data (DataSource.table 7 []) hojeW).hoje
        = (load_and_process_data (DataSource.table 8 gridAllFiltered) hojeW).hoje :=
  ingestion_failure_indistinguishable hojeW (DataSource.table 7 [])
    (DataSource.table 8 gridAllFiltered)
    (Or.inr ⟨7, [], rfl, by decide⟩)
    ⟨gridAllFiltered, rfl, by decide⟩

/-- C10: the critical KPI counts rows (lots) while its percentage
divides by distinct materials: one material with two critical lots
yields a critical count of 2 against 1 distinct material, and the
displayed percentage is 200, exceeding 100. -/
theorem critical_kpi_rows_vs_materials :
    criticos_count (process_rows grid10 hoje10) = 2
    ∧ total_materiais (process_rows grid10 hoje10) = 1
    ∧ materiais_criticos_nunique (process_rows grid10 hoje10) = 1
    ∧ criticos_count (process_rows grid10 hoje10)
        ≠ materiais_criticos_nunique (process_rows grid10 hoje10)
    ∧ percentual_critico (process_rows grid10 hoje10) = 200
    ∧ 100 < percentual_critico (process_rows grid10 hoje10) := by
  decide

/-- Looking up a fixed element with `find?` returns that element exactly
when it is present. -/
theorem find?_decide_eq {α : Type} [DecidableEq α] (l : List α) (c : α) :
    l.find? (fun k => decide (k = c)) = if c ∈ l then some c else none := by
  induction l with
  | nil => rfl
  | cons a t ih =>
      rw [List.find?_cons]
      by_cases h : a = c
      · subst h; simp
      · have h2 : decide (a = c) = false := decide_eq_false h
        rw [h2]
        simp only [ih, List.mem_cons]
        by_cases hm : c ∈ t <;> simp [hm, Ne.symm h]

/-- The groupby frame looks up a tier to its distinct-material count
when the tier occurs in the rows, and to nothing otherwise. -/
theorem groupby_Categoria_find (rows : List Row) (c : Categoria) :
    (groupby_Categoria rows).find? (fun p => decide (p.1 = c))
      = if c ∈ rows.map (·.Categoria_Aging) then
          some (c, nunique_Material (rows.filter (fun r => decide (r.Categoria_Aging = c))))
        else none := by
  simp only [groupby_Categoria]
  rw [List.find?_map]
  have hc : ((fun p : Categoria × Nat => decide (p.1 = c)) ∘
      (fun k => (k, nunique_Material (rows.filter (fun r => decide (r.Categoria_Aging = k))))))
      = fun k => decide (k = c) := rfl
  rw [hc, find?_decide_eq]
  by_cases hm : c ∈ rows.map (·.Categoria_Aging) <;>
    simp [hm, List.mem_insertionSort, List.mem_dedup]

/-- The groupby frame mentions a tier exactly when some row carries it. -/
theorem groupby_Categoria_any (rows : List Row) (c : Categoria) :
    (groupby_Categoria rows).any (fun p => decide (p.1 = c))
      = decide (c ∈ rows.map (·.Categoria_Aging)) := by
  by_cases hm : c ∈ rows.map (·.Categoria_Aging)
  · have hf := groupby_Categoria_find rows c
    rw [if_pos hm] at hf
    rw [decide_eq_true hm]
    exact List.any_eq_true.2 ⟨_, List.mem_of_find?_eq_some hf, by simp⟩
  · have hf := groupby_Categoria_find rows c
    rw [if_neg hm] at hf
    rw [decide_eq_false hm]
    exact List.any_eq_false.2 fun x hx hpx => (List.find?_eq_none.1 hf x hx) hpx

/-- A tier absent from the rows has no critical rows, so its
distinct-material count is 0. -/
theorem nunique_absent (rows : List Row) (c : Categoria)
    (hm : c ∉ rows.map (·.Categoria_Aging)) :
    nunique_Material (rows.filter (fun r => decide (r.Categoria_Aging = c))) = 0 := by
  have h : rows.filter (fun r => decide (r.Categoria_Aging = c)) = [] := by
    rw [List.filter_eq_nil_iff]
    intro r hr hpr
    exact hm (List.mem_map.2 ⟨r, hr, by simpa using hpr⟩)
  rw [h]; rfl

/-- C4: for every surviving row set, tier-count aggregation returns
exactly the three tier labels in display order, each mapped to the count
of distinct material identifiers among that tier's rows; an absent tier
appears with count 0 — all before the display-time suppression of
zero-count slices. -/
theorem tier_counts_complete (rows : List Row) :
    aging_counts rows
      = [(Categoria.Normal,
           nunique_Material (rows.filter (fun r => decide (r.Categoria_Aging = Categoria.Normal)))),
         (Categoria.Alerta,
           nunique_Material (rows.filter (fun r => decide (r.Categoria_Aging = Categoria.Alerta)))),
         (Categoria.Critico,
           nunique_Material (rows.filter (fun r => decide (r.Categoria_Aging = Categoria.Critico))))] := by
  unfold aging_counts
  by_cases hN : ∃ a ∈ rows, a.Categoria_Aging = Categoria.Normal <;>
    by_cases hA : ∃ a ∈ rows, a.Categoria_Aging = Categoria.Alerta <;>
      by_cases hC : ∃ a ∈ rows, a.Categoria_Aging = Categoria.Critico <;>
        simp [fill_missing, category_order, cat_sort,
          List.any_append, List.find?_append,
          List.filterMap_cons, List.filterMap_nil,
          groupby_Categoria_any, groupby_Categoria_find,
          hN, hA, hC, nunique_absent, List.find?_cons,
          List.mem_map]

/-- C3 counterexample: in `cexRows` material `A` is seen before material
`B` and the two groups' mean agings are equal, yet the top-N rollup
returns `B` before `A` — the tie is not broken by first-seen order. -/
theorem topn_tiebreak_cex :
    cexRows.map (·.Material) = ["A", "B"]
    ∧ mean_dias (grupo cexRows ("A", "DA")) = mean_dias (grupo cexRows ("B", "DB"))
    ∧ (aging_por_material cexRows 5).map (·.Material) = ["B", "A"] := by
  refine ⟨rfl, by decide, by decide⟩

/-- C3 amended: for every surviving row set and every N in [5, 20], the
per-material rollup groups rows by (material id, description), computes
mean `days_in_stock`, distinct lot count and summed quantity per group,
and returns pairwise-distinct groups in non-increasing order of mean
aging truncated to the top N — every group whose rollup is not returned
has mean aging at most that of every returned entry; ties between equal
means are NOT broken by first-seen order — the grouping step pre-sorts
group keys ascending and the descending sort reverses a stable ascending
sort, as the tie fixture shows (`B` is returned before the first-seen
`A`). -/
theorem topn_rollup_amended (rows : List Row) (n : Nat)
    (_h5 : 5 ≤ n) (_h20 : n ≤ 20) :
    (aging_por_material rows n).length = min n (material_keys rows).length
    ∧ ((aging_por_material rows n).map
        (fun g => (g.Material, g.Descricao_Material))).Nodup
    ∧ (∀ g ∈ aging_por_material rows n,
        (g.Material, g.Descricao_Material) ∈ material_keys rows
        ∧ g.Aging_Medio = mean_dias (grupo rows (g.Material, g.Descricao_Material))
        ∧ g.Total_Lotes
            = (((grupo rows (g.Material, g.Descricao_Material)).map (·.Lote)).dedup).length
        ∧ g.Estoque_Total
            = ((grupo rows (g.Material, g.Descricao_Material)).map (·.Estoque_Disponivel)).sum)
    ∧ (aging_por_material rows n).Pairwise (fun a b => b.Aging_Medio ≤ a.Aging_Medio)
    ∧ (∀ k ∈ material_keys rows,
        rollup_of rows k ∉ aging_por_material rows n →
        ∀ g ∈ aging_por_material rows n,
          mean_dias (grupo rows k) ≤ g.Aging_Medio)
    ∧ (aging_por_material cexRows 5).map (·.Material) = ["B", "A"] := by
  have hdef : aging_por_material rows n
      = (sort_desc_aging (rollup_table rows)).take n := rfl
  have hkeymap : (rollup_table rows).map (fun g => (g.Material, g.Descricao_Material))
      = (material_keys rows).insertionSort key_le := by
    unfold rollup_table
    rw [List.map_map]
    have hcomp : ((fun g : Rollup => (g.Material, g.Descricao_Material)) ∘ rollup_of rows)
        = id := funext fun k => rfl
    rw [hcomp, List.map_id]
  have hpairfull : (sort_desc_aging (rollup_table rows)).Pairwise
      (fun a b => b.Aging_Medio ≤ a.Aging_Medio) := by
    have hs : ((rollup_table rows).insertionSort aging_le).Pairwise aging_le :=
      List.sorted_insertionSort aging_le _
    unfold sort_desc_aging
    exact List.pairwise_reverse.2 (hs.imp fun h => h)
  refine ⟨?_, ?_, ?_, ?_, ?_, by decide⟩
  · simp [aging_por_material, sort_desc_aging, rollup_table,
      List.length_take, List.length_reverse, List.length_insertionSort,
      List.length_map]
  · have hnd : ((sort_desc_aging (rollup_table rows)).map
        (fun g => (g.Material, g.Descricao_Material))).Nodup := by
      unfold sort_desc_aging
      rw [List.map_reverse, List.nodup_reverse]
      have hperm : List.Perm
          (((rollup_table rows).insertionSort aging_le).map
            (fun g : Rollup => (g.Material, g.Descricao_Material)))
          ((rollup_table rows).map
            (fun g : Rollup => (g.Material, g.Descricao_Material))) :=
        (List.perm_insertionSort aging_le _).map _
      rw [hperm.nodup_iff, hkeymap,
        (List.perm_insertionSort key_le (material_keys rows)).nodup_iff]
      exact List.nodup_dedup _
    rw [hdef, List.map_take]
    exact hnd.sublist (List.take_sublist _ _)
  · intro g hg
    have hg1 : g ∈ sort_desc_aging (rollup_table rows) := List.mem_of_mem_take hg
    unfold sort_desc_aging at hg1
    rw [List.mem_reverse, List.mem_insertionSort] at hg1
    unfold rollup_table at hg1
    obtain ⟨k, hk, rfl⟩ := List.mem_map.1 hg1
    have hk2 : k ∈ material_keys rows := (List.mem_insertionSort _).1 hk
    have hkey : ((rollup_of rows k).Material, (rollup_of rows k).Descricao_Material) = k := rfl
    rw [hkey]
    exact ⟨hk2, rfl, rfl, rfl⟩
  · exact hpairfull.sublist (List.take_sublist _ _)
  · intro k hk hnot g hg
    have hrk : rollup_of rows k ∈ sort_desc_aging (rollup_table rows) := by
      unfold sort_desc_aging
      rw [List.mem_reverse, List.mem_insertionSort]
      exact List.mem_map_of_mem _ ((List.mem_insertionSort _).2 hk)
    rw [hdef] at hnot hg
    have hsplitL : sort_desc_aging (rollup_table rows)
        = (sort_desc_aging (rollup_table rows)).take n
          ++ (sort_desc_aging (rollup_table rows)).drop n :=
      (List.take_append_drop n _).symm
    have hdropmem : rollup_of rows k ∈ (sort_desc_aging (rollup_table rows)).drop n := by
      rcases List.mem_append.1 (hsplitL ▸ hrk) with h | h
      · exact absurd h hnot
      · exact h
    have hsplit := List.pairwise_append.1 (hsplitL ▸ hpairfull)
    exact hsplit.2.2 g hg _ hdropmem

/-- C3 witness for the amended theorem, instantiated on the tie fixture
with N = 5. -/
theorem topn_rollup_amended_witness :
    (aging_por_material cexRows 5).length = min 5 (material_keys cexRows).length
    ∧ ((aging_por_material cexRows 5).map
        (fun g => (g.Material, g.Descricao_Material))).Nodup
    ∧ (aging_por_material cexRows 5).Pairwise
        (fun a b => b.Aging_Medio ≤ a.Aging_Medio) :=
  ⟨(topn_rollup_amended cexRows 5 (by decide) (by decide)).1,
   (topn_rollup_amended cexRows 5 (by decide) (by decide)).2.1,
   (topn_rollup_amended cexRows 5 (by decide) (by decide)).2.2.2.1⟩

end AgingPesagem
